import Mathlib

/-!
Verification development for the calendar core of a personal productivity
application: recurring-event expansion, timeline normalization, workload
aggregation, conflict detection and stale-task rollover.

Dates are modelled as `Int` millisecond timestamps (JavaScript `Date.getTime()`
values), with local time identified with UTC.  Calendar decomposition uses the
proleptic Gregorian calendar (the same civil-from-days / days-from-civil
algorithm underlying JavaScript date arithmetic).  The `while` loops of the
source are modelled with explicit fuel; the `Bool` component of a loop's result
records whether the loop exited normally (`true`) or ran out of fuel (`false`).
-/

namespace CalendarCore

/-- Milliseconds in one day. -/
def dayMs : Int := 86400000

/-- Epoch-day index of a timestamp (floor division; local time = UTC). -/
def epochDay (t : Int) : Int := Int.ediv t dayMs

/-- Milliseconds elapsed since local midnight. -/
def msOfDay (t : Int) : Int := Int.emod t dayMs

/-- A civil (proleptic Gregorian) calendar date. -/
structure Civil where
  year : Int
  month : Int
  day : Int
deriving Repr, DecidableEq

/-- Civil date of an epoch-day index (the Gregorian algorithm used by JS dates). -/
def civilFromDays (z0 : Int) : Civil :=
  let z := z0 + 719468
  let era := Int.ediv z 146097
  let doe := z - era * 146097
  let yoe := Int.ediv (doe - Int.ediv doe 1460 + Int.ediv doe 36524 - Int.ediv doe 146096) 365
  let y := yoe + era * 400
  let doy := doe - (365 * yoe + Int.ediv yoe 4 - Int.ediv yoe 100)
  let mp := Int.ediv (5 * doy + 2) 153
  let d := doy - Int.ediv (153 * mp + 2) 5 + 1
  let m := mp + (if mp < 10 then 3 else -9)
  { year := y + (if m ≤ 2 then 1 else 0), month := m, day := d }

/-- Epoch-day index of a civil date.  The formula is linear in `d`, so an
out-of-range day-of-month overflows into the following months exactly as the
JavaScript `Date` setters do. -/
def daysFromCivil (y m d : Int) : Int :=
  let yAdj := y - (if m ≤ 2 then 1 else 0)
  let era := Int.ediv yAdj 400
  let yoe := yAdj - era * 400
  let mp := m + (if m > 2 then -3 else 9)
  let doy := Int.ediv (153 * mp + 2) 5 + d - 1
  let doe := yoe * 365 + Int.ediv yoe 4 - Int.ediv yoe 100 + doy
  era * 146097 + doe - 719468

/-- Timestamp of a civil date at a given millisecond offset into the day. -/
def mkTimestamp (y m d ms : Int) : Int := daysFromCivil y m d * dayMs + ms

/-- JS `date.getDay()`: day of week, 0 = Sunday (1970-01-01 was a Thursday). -/
def getDayJS (t : Int) : Int := Int.emod (epochDay t + 4) 7

/-- JS `date.getDate()`: day of month, 1-31. -/
def getDateJS (t : Int) : Int := (civilFromDays (epochDay t)).day

/-- JS `date.getMonth()`: month index, 0-11. -/
def getMonthJS (t : Int) : Int := (civilFromDays (epochDay t)).month - 1

/-- JS `date.getFullYear()`. -/
def getFullYearJS (t : Int) : Int := (civilFromDays (epochDay t)).year

/-- Gregorian leap-year test. -/
def isLeapYear (y : Int) : Bool :=
  (Int.emod y 4 == 0 && Int.emod y 100 != 0) || Int.emod y 400 == 0

/-- Number of days in a month. -/
def daysInMonth (y m : Int) : Int :=
  if m == 2 then (if isLeapYear y then 29 else 28)
  else if m == 4 || m == 6 || m == 9 || m == 11 then 30
  else 31

/-- date-fns `addDays` (local = UTC, so a day is exactly 86400000 ms). -/
def addDays (t n : Int) : Int := t + n * dayMs

/-- date-fns `addMonths`: advances the month, clamping the day-of-month to the
last day of the target month. -/
def addMonths (t n : Int) : Int :=
  let c := civilFromDays (epochDay t)
  let total := c.year * 12 + (c.month - 1) + n
  let y := Int.ediv total 12
  let m := Int.emod total 12 + 1
  let d := min c.day (daysInMonth y m)
  mkTimestamp y m d (msOfDay t)

/-- date-fns `addYears` (implemented as twelve-month steps, clamping Feb 29). -/
def addYears (t n : Int) : Int := addMonths t (12 * n)

/-- JS `date.setMonth(v)`: out-of-range month indices adjust the year, and an
out-of-range day-of-month overflows into the next month. -/
def setMonthJS (t v : Int) : Int :=
  let c := civilFromDays (epochDay t)
  mkTimestamp (c.year + Int.ediv v 12) (Int.emod v 12 + 1) c.day (msOfDay t)

/-- JS `date.setFullYear(y)` (Feb 29 overflows to Mar 1 in a non-leap year). -/
def setFullYearJS (t y : Int) : Int :=
  let c := civilFromDays (epochDay t)
  mkTimestamp y c.month c.day (msOfDay t)

/-- JS `date.setHours(0,0,0,0)`: truncation to local midnight. -/
def truncDay (t : Int) : Int := epochDay t * dayMs

/-- date-fns `isSameDay`: both timestamps lie on the same local calendar day. -/
def isSameDay (a b : Int) : Bool := epochDay a == epochDay b

/-- Left-pad a number to two digits. -/
def pad2 (n : Int) : String :=
  if 0 ≤ n && n < 10 then "0" ++ toString n else toString n

/-- Left-pad a number to four digits. -/
def pad4 (n : Int) : String :=
  if 0 ≤ n && n < 10 then "000" ++ toString n
  else if 0 ≤ n && n < 100 then "00" ++ toString n
  else if 0 ≤ n && n < 1000 then "0" ++ toString n
  else toString n

/-- date-fns `format(date, "yyyy-MM-dd")`. -/
def formatYMD (t : Int) : String :=
  let c := civilFromDays (epochDay t)
  pad4 c.year ++ "-" ++ pad2 c.month ++ "-" ++ pad2 c.day

/-- `recurrenceSchema` of `shared/schema.ts`.  The `type` field is a string at
runtime (the schema enumerates none/daily/weekly/monthly/yearly/custom, and the
expander is specified to be resilient to unknown future kinds). -/
structure RecurrencePattern where
  type : String
  interval : Int
  daysOfWeek : Option (List Int)
  dayOfMonth : Option Int
  weekOfMonth : Option Int
  monthOfYear : Option Int
  endDate : Option Int
deriving Repr, DecidableEq

/-- `calendarEventSchema` of `shared/schema.ts` (fields the calendar core reads). -/
structure CalendarEvent where
  id : String
  title : String
  description : Option String
  startDate : Int
  endDate : Int
  isAllDay : Bool
  color : String
  priority : String
  tags : List String
  location : Option String
  recurrence : Option RecurrencePattern
  createdAt : Int
  updatedAt : Int
deriving Repr, DecidableEq

/-- `taskSchema` of `shared/schema.ts` (fields the calendar core reads), plus
the `isAutoRolled` flag written by `autoRolloverTasks`. -/
structure Task where
  id : String
  title : String
  notes : Option String
  completed : Bool
  priority : String
  status : String
  dueDate : Option Int
  startDate : Option Int
  project : Option String
  tags : List String
  isAutoRolled : Bool
  createdAt : Int
  updatedAt : Int
deriving Repr, DecidableEq

/-- `goalSchema` of `shared/schema.ts` (fields the calendar core reads). -/
structure Goal where
  id : String
  title : String
  description : Option String
  deadline : Option Int
  priority : String
  createdAt : Int
  updatedAt : Int
deriving Repr, DecidableEq

/-- `reminderSchema` of `shared/schema.ts` (fields the calendar core reads). -/
structure Reminder where
  id : String
  title : String
  description : Option String
  remindAt : Int
  completed : Bool
  priority : String
  createdAt : Int
  updatedAt : Int
deriving Repr, DecidableEq

/-- `timeBlockSchema` of `shared/schema.ts` (fields the calendar core reads). -/
structure TimeBlock where
  id : String
  title : String
  startTime : Int
  endTime : Int
  color : Option String
  isCompleted : Bool
  createdAt : Int
  updatedAt : Int
deriving Repr, DecidableEq

/-- The `originalItem` back-reference stored in a `CalendarItem`. -/
inductive OriginalItem where
  | task : Task → OriginalItem
  | event : CalendarEvent → OriginalItem
  | goal : Goal → OriginalItem
  | reminder : Reminder → OriginalItem
  | timeblock : TimeBlock → OriginalItem
deriving Repr, DecidableEq

/-- The `CalendarItem` interface of `calendarHelpers`. -/
structure CalendarItem where
  id : String
  title : String
  description : Option String
  startTime : Int
  endTime : Option Int
  duration : Option Int
  type : String
  color : Option String
  project : Option String
  group : Option String
  priority : Option String
  status : Option String
  notes : Option String
  isAutoRolled : Option Bool
  originalItem : OriginalItem
deriving Repr, DecidableEq

/-- JS `rule.interval || 1`: only the falsy value 0 is replaced by 1. -/
def effectiveInterval (i : Int) : Int := if i == 0 then 1 else i

/-- The `shouldCreate` switch inside `generateEventInstances`: does the cursor
date match the recurrence rule?  Unhandled kinds leave `shouldCreate` false. -/
def shouldCreateEventInstance (rule : RecurrencePattern) (t : Int) : Bool :=
  if rule.type == "daily" then true
  else if rule.type == "weekly" then
    match rule.daysOfWeek with
    | some l => l.contains (getDayJS t)
    | none => false
  else if rule.type == "monthly" then
    match rule.dayOfMonth with
    | some dm => dm == getDateJS t
    | none => false
  else if rule.type == "yearly" then
    match rule.monthOfYear, rule.dayOfMonth with
    | some my, some dm => my == getMonthJS t + 1 && dm == getDateJS t
    | _, _ => false
  else false

/-- Cursor advancement of `generateEventInstances`: the per-kind switch,
followed by the weekly "safety break" that walks 7·(interval−1) further days
one at a time.  The default branch jumps past the view window.  Caveat: the
source calls `addYears` without importing it (only `addWeeks` is imported), so
at runtime the yearly branch throws a ReferenceError and a yearly rule yields
no occurrences; the model gives that branch the date-fns `addYears` semantics
instead, a superset of the runtime behavior — it can only add occurrences, so
membership-based bounds proved over the model also cover the runtime. -/
def nextEventCursor (rule : RecurrencePattern) (viewEnd t : Int) : Int :=
  let interval := effectiveInterval rule.interval
  let stepped :=
    if rule.type == "daily" then addDays t interval
    else if rule.type == "weekly" then addDays t 1
    else if rule.type == "monthly" then addMonths t interval
    else if rule.type == "yearly" then addYears t interval
    else addDays viewEnd 1
  if rule.type == "weekly" && interval > 1 then addDays stepped (7 * (interval - 1))
  else stepped

/-- Clone of a recurring event at a cursor date: shifted start, end shifted by
the original duration, id suffixed with the ISO day. -/
def eventInstance (event : CalendarEvent) (t : Int) : CalendarEvent :=
  let duration := event.endDate - event.startDate
  { event with
    id := event.id ++ "-" ++ formatYMD t
    startDate := t
    endDate := t + duration }

/-- The `while (currentDate <= viewEnd)` loop of `generateEventInstances`,
with explicit fuel.  The `Bool` result records normal exit. -/
def generateInstancesLoop (event : CalendarEvent) (rule : RecurrencePattern)
    (viewStart viewEnd : Int) : Nat → Int → List CalendarEvent × Bool
  | 0, _ => ([], false)
  | Nat.succ fuel, t =>
    if t ≤ viewEnd then
      ((if decide (viewStart ≤ t) && shouldCreateEventInstance rule t then
          [eventInstance event t]
        else []) ++
        (generateInstancesLoop event rule viewStart viewEnd fuel
          (nextEventCursor rule viewEnd t)).1,
       (generateInstancesLoop event rule viewStart viewEnd fuel
          (nextEventCursor rule viewEnd t)).2)
    else ([], true)

/-- Expansion of a single event by `generateEventInstances`: a non-recurring
event (absent rule or kind `none`) passes through when it lies inside the
closed window; otherwise the cursor loop runs from the event's start date. -/
def expandEvent (event : CalendarEvent) (viewStart viewEnd : Int) (fuel : Nat) :
    List CalendarEvent × Bool :=
  match event.recurrence with
  | none =>
    (if viewStart ≤ event.startDate && event.startDate ≤ viewEnd then [event] else [], true)
  | some rule =>
    if rule.type == "none" then
      (if viewStart ≤ event.startDate && event.startDate ≤ viewEnd then [event] else [], true)
    else
      generateInstancesLoop event rule viewStart viewEnd fuel event.startDate

/-- `generateEventInstances` of `calendarHelpers`: occurrence expansion of a
list of events over a closed view window. -/
def generateEventInstances (events : List CalendarEvent) (viewStart viewEnd : Int)
    (fuel : Nat) : List CalendarEvent × Bool :=
  (events.flatMap fun event => (expandEvent event viewStart viewEnd fuel).1,
   events.all fun event => (expandEvent event viewStart viewEnd fuel).2)

/-- The `RecurrenceRule` type consumed by the older
`client/src/utils/calendarHelpers.ts` copy of the expander.  Its fields are
determined by their uses in that file: `daysOfWeek` and `exceptions` are stored
as JSON strings there and are modelled by their parsed contents (`none` stands
for an absent or empty-string field, which the source treats alike via JS
truthiness). -/
structure RecurrenceRule where
  frequency : String
  interval : Option Int
  daysOfWeek : Option (List Int)
  dayOfMonth : Option Int
  monthOfYear : Option Int
  endDate : Option Int
  exceptions : Option (List String)
deriving Repr, DecidableEq

/-- `shouldCreateInstance` of `calendarHelpers.ts`: end-date and exception
guards, then the per-frequency match; unknown frequencies yield `false`.
JS truthiness of the optional numeric fields is preserved (a present value 0 is
falsy, so the corresponding filter is skipped). -/
def shouldCreateInstance (rule : RecurrenceRule) (t : Int) : Bool :=
  if (match rule.endDate with
      | some ed => decide (t > ed)
      | none => false) then false
  else if (match rule.exceptions with
      | some exs => exs.contains (formatYMD t)
      | none => false) then false
  else if rule.frequency == "daily" then true
  else if rule.frequency == "weekly" then
    match rule.daysOfWeek with
    | some l => l.contains (getDayJS t)
    | none => true
  else if rule.frequency == "monthly" then
    match rule.dayOfMonth with
    | some dm => if dm != 0 then getDateJS t == dm else true
    | none => true
  else if rule.frequency == "yearly" then
    match rule.monthOfYear, rule.dayOfMonth with
    | some my, some dm =>
      if my != 0 && dm != 0 then getMonthJS t == my - 1 && getDateJS t == dm else true
    | _, _ => true
  else false

/-- `getNextRecurrenceDate` of `calendarHelpers.ts`.  `rule.interval || 1`
coerces an absent or zero interval to 1; `monthly` uses the JS `setMonth`
overflow semantics and `yearly` uses `setFullYear`. -/
def getNextRecurrenceDate (rule : RecurrenceRule) (t : Int) : Int :=
  let interval :=
    match rule.interval with
    | some i => if i == 0 then 1 else i
    | none => 1
  if rule.frequency == "daily" then addDays t interval
  else if rule.frequency == "weekly" then addDays t (7 * interval)
  else if rule.frequency == "monthly" then setMonthJS t (getMonthJS t + interval)
  else if rule.frequency == "yearly" then setFullYearJS t (getFullYearJS t + interval)
  else addDays t 1

/-- The cloned instance pushed by `generateRecurringInstances`: id suffixed with
the ISO day, start moved to the cursor, end shifted by the base duration when
the base item has an end time. -/
def recurringInstance (baseItem : CalendarItem) (t : Int) : CalendarItem :=
  { baseItem with
    id := baseItem.id ++ "-" ++ formatYMD t
    startTime := t
    endTime := baseItem.endTime.map fun e => t + (e - baseItem.startTime) }

/-- The `while (currentDate <= endDate)` loop of `generateRecurringInstances`,
with explicit fuel; the `Bool` records normal exit. -/
def generateRecurringLoop (rule : RecurrenceRule) (baseItem : CalendarItem)
    (endDate : Int) : Nat → Int → List CalendarItem × Bool
  | 0, _ => ([], false)
  | Nat.succ fuel, t =>
    if t ≤ endDate then
      ((if shouldCreateInstance rule t then [recurringInstance baseItem t] else []) ++
        (generateRecurringLoop rule baseItem endDate fuel (getNextRecurrenceDate rule t)).1,
       (generateRecurringLoop rule baseItem endDate fuel (getNextRecurrenceDate rule t)).2)
    else ([], true)

/-- `generateRecurringInstances` of `calendarHelpers.ts`: walks a cursor from
`startDate` (the window start) while it does not exceed `endDate` (the window
end), cloning the base item at every date accepted by `shouldCreateInstance`. -/
def generateRecurringInstances (rule : RecurrenceRule) (baseItem : CalendarItem)
    (startDate endDate : Int) (fuel : Nat) : List CalendarItem × Bool :=
  generateRecurringLoop rule baseItem endDate fuel startDate

/-- JS `item.duration || 30`: an absent duration — or a present falsy 0 — is
replaced by 30. -/
def durationOr30 (d : Option Int) : Int :=
  match d with
  | some v => if v == 0 then 30 else v
  | none => 30

/-- `calculateWorkload`: total minutes of the items starting on the given
calendar day. -/
def calculateWorkload (items : List CalendarItem) (date : Int) : Int :=
  let dayItems := items.filter fun item => isSameDay item.startTime date
  dayItems.foldl (fun total item => total + durationOr30 item.duration) 0

/-- `getWorkloadColor`: bucketed intensity classification of a minute total. -/
def getWorkloadColor (minutes : Int) : String :=
  if minutes == 0 then "bg-gray-100"
  else if minutes ≤ 120 then "bg-green-200"
  else if minutes ≤ 240 then "bg-yellow-200"
  else if minutes ≤ 360 then "bg-orange-200"
  else "bg-red-200"

/-- Stated from the words of claim C9, for comparison with `calculateWorkload`:
the sum of `duration` over the items of the day, counting only a MISSING
duration as 30. -/
def workloadMinutesClaimed (items : List CalendarItem) (date : Int) : Int :=
  ((items.filter fun item => isSameDay item.startTime date).map
    fun item => item.duration.getD 30).sum

/-- The arrow function mapped by `autoRolloverTasks` over the task list: an
incomplete task whose due date's calendar day is strictly before `today` gets
its due date rewritten to `today` (already a midnight) and is flagged as
auto-rolled; every other task passes through unchanged. -/
def rolloverTask (today : Int) (task : Task) : Task :=
  if task.status != "completed" then
    match task.dueDate with
    | some due =>
      if truncDay due < today then
        { task with dueDate := some today, isAutoRolled := true }
      else task
    | none => task
  else task

/-- `autoRolloverTasks`; `now` is the `new Date()` captured once at the start
of the call, truncated to local midnight before the per-task comparisons. -/
def autoRolloverTasks (tasks : List Task) (now : Int) : List Task :=
  tasks.map (rolloverTask (truncDay now))

/-- JS `ToInt32` (the effect of `a & a` on a number). -/
def int32Wrap (x : Int) : Int :=
  Int.emod (x + 2147483648) 4294967296 - 2147483648

/-- `getProjectColor`: deterministic rolling hash of the project name into a
fixed palette of eight colors; an absent (or empty, hence falsy) project yields
the neutral default. -/
def getProjectColor (project : Option String) : String :=
  match project with
  | none => "bg-gray-500"
  | some p =>
    if p == "" then "bg-gray-500"
    else
      let colors := ["bg-blue-500", "bg-green-500", "bg-purple-500", "bg-red-500",
                     "bg-yellow-500", "bg-indigo-500", "bg-pink-500", "bg-teal-500"]
      let hash := p.toList.foldl
        (fun a b => int32Wrap (int32Wrap (a * 32) - a + (b.toNat : Int))) 0
      colors.getD (Int.natAbs hash % 8) "bg-gray-500"

/-- Task conversion of `convertToCalendarItems`: only tasks with a due date
produce an item. -/
def taskToItem (task : Task) : Option CalendarItem :=
  task.dueDate.map fun due =>
    { id := task.id
      title := task.title
      description := task.notes
      startTime := due
      endTime := none
      duration := none
      type := "task"
      color := some (getProjectColor task.project)
      project := task.project
      group := none
      priority := some task.priority
      status := some task.status
      notes := none
      isAutoRolled := none
      originalItem := OriginalItem.task task }

/-- Event conversion of `convertToCalendarItems`. -/
def eventToItem (event : CalendarEvent) : CalendarItem :=
  { id := event.id
    title := event.title
    description := event.description
    startTime := event.startDate
    endTime := some event.endDate
    duration := none
    type := "event"
    color := some event.color
    project := none
    group := none
    priority := some event.priority
    status := none
    notes := none
    isAutoRolled := none
    originalItem := OriginalItem.event event }

/-- Goal conversion of `convertToCalendarItems`: only goals with a deadline
produce an item. -/
def goalToItem (goal : Goal) : Option CalendarItem :=
  goal.deadline.map fun deadline =>
    { id := goal.id
      title := goal.title
      description := goal.description
      startTime := deadline
      endTime := none
      duration := none
      type := "goal"
      color := some "bg-purple-500"
      project := none
      group := none
      priority := some goal.priority
      status := none
      notes := none
      isAutoRolled := none
      originalItem := OriginalItem.goal goal }

/-- Reminder conversion of `convertToCalendarItems`. -/
def reminderToItem (reminder : Reminder) : CalendarItem :=
  { id := reminder.id
    title := reminder.title
    description := reminder.description
    startTime := reminder.remindAt
    endTime := none
    duration := none
    type := "reminder"
    color := some "bg-blue-500"
    project := none
    group := none
    priority := some reminder.priority
    status := none
    notes := none
    isAutoRolled := none
    originalItem := OriginalItem.reminder reminder }

/-- Time-block conversion of `convertToCalendarItems`; `block.color ||
'bg-gray-500'` also replaces a present empty string by the default. -/
def timeBlockToItem (block : TimeBlock) : CalendarItem :=
  { id := block.id
    title := block.title
    description := none
    startTime := block.startTime
    endTime := some block.endTime
    duration := none
    type := "timeblock"
    color := some (match block.color with
      | some c => if c == "" then "bg-gray-500" else c
      | none => "bg-gray-500")
    project := none
    group := none
    priority := none
    status := none
    notes := none
    isAutoRolled := none
    originalItem := OriginalItem.timeblock block }

/-- The item list built by `convertToCalendarItems` before its final sort:
tasks, then events, then goals, then reminders, then time blocks, each in input
order. -/
def convertUnsorted (tasks : List Task) (events : List CalendarEvent)
    (goals : List Goal) (reminders : List Reminder) (timeBlocks : List TimeBlock) :
    List CalendarItem :=
  tasks.filterMap taskToItem ++ events.map eventToItem ++ goals.filterMap goalToItem
    ++ reminders.map reminderToItem ++ timeBlocks.map timeBlockToItem

/-- The comparator `(a, b) => a.startTime.getTime() - b.startTime.getTime()`. -/
def byStartTime (a b : CalendarItem) : Bool := decide (a.startTime ≤ b.startTime)

/-- `convertToCalendarItems`: the unified timeline, sorted ascending by start
time.  `Array.prototype.sort` is stable (ES2019), which a stable merge sort
models exactly. -/
def convertToCalendarItems (tasks : List Task) (events : List CalendarEvent)
    (goals : List Goal) (reminders : List Reminder) (timeBlocks : List TimeBlock) :
    List CalendarItem :=
  (convertUnsorted tasks events goals reminders timeBlocks).mergeSort byStartTime

/-- The candidate shape `Pick<CalendarItem, 'id' | 'startTime' | 'endTime'>`
accepted by `detectConflicts`; both times are runtime-checked, hence optional. -/
structure ConflictCandidate where
  id : String
  startTime : Option Int
  endTime : Option Int
deriving Repr, DecidableEq

/-- date-fns `areIntervalsOverlapping` (no options): each interval's endpoints
are sorted ascending, then the half-open overlap test is applied strictly. -/
def areIntervalsOverlapping (ls le rs re : Int) : Bool :=
  decide (min ls le < max rs re) && decide (min rs re < max ls le)

/-- `detectConflicts`: empty when the candidate lacks either time; otherwise
every other item with an end time whose interval overlaps the candidate's. -/
def detectConflicts (allItems : List CalendarItem) (currentItem : ConflictCandidate) :
    List CalendarItem :=
  match currentItem.startTime, currentItem.endTime with
  | some cs, some ce =>
    allItems.filter fun item =>
      if item.id == currentItem.id then false
      else
        match item.endTime with
        | none => false
        | some ie => areIntervalsOverlapping cs ce item.startTime ie
  | _, _ => []

/-! ### Generic facts about the expansion loops -/

theorem eventInstance_startDate (event : CalendarEvent) (t : Int) :
    (eventInstance event t).startDate = t := rfl

theorem eventInstance_endDate (event : CalendarEvent) (t : Int) :
    (eventInstance event t).endDate = t + (event.endDate - event.startDate) := rfl

/-- Every element of a (possibly fuel-truncated) run of the
`generateEventInstances` cursor loop is an instance cloned at a cursor date
that lies inside the window and matches the rule. -/
theorem mem_generateInstancesLoop {event : CalendarEvent} {rule : RecurrencePattern}
    {viewStart viewEnd : Int} :
    ∀ {fuel : Nat} {t : Int} {o : CalendarEvent},
      o ∈ (generateInstancesLoop event rule viewStart viewEnd fuel t).1 →
      ∃ s, viewStart ≤ s ∧ s ≤ viewEnd ∧ shouldCreateEventInstance rule s = true ∧
        o = eventInstance event s := by
  intro fuel
  induction fuel with
  | zero => intro t o h; simp [generateInstancesLoop] at h
  | succ fuel ih =>
    intro t o h
    rw [generateInstancesLoop] at h
    by_cases hle : t ≤ viewEnd
    · rw [if_pos hle] at h
      rcases List.mem_append.1 h with h1 | h2
      · by_cases hc : (decide (viewStart ≤ t) && shouldCreateEventInstance rule t) = true
        · rw [if_pos hc] at h1
          rw [Bool.and_eq_true] at hc
          exact ⟨t, of_decide_eq_true hc.1, hle, hc.2, List.mem_singleton.1 h1⟩
        · rw [if_neg hc] at h1
          exact absurd h1 (List.not_mem_nil o)
      · exact ih h2
    · rw [if_neg hle] at h
      exact absurd h (List.not_mem_nil o)

/-- Every element of a (possibly fuel-truncated) run of the
`generateRecurringInstances` cursor loop is a clone of the base item at a
cursor date that does not exceed the window end and passes
`shouldCreateInstance`. -/
theorem mem_generateRecurringLoop {rule : RecurrenceRule} {baseItem : CalendarItem}
    {endDate : Int} :
    ∀ {fuel : Nat} {t : Int} {o : CalendarItem},
      o ∈ (generateRecurringLoop rule baseItem endDate fuel t).1 →
      ∃ s, s ≤ endDate ∧ shouldCreateInstance rule s = true ∧
        o = recurringInstance baseItem s := by
  intro fuel
  induction fuel with
  | zero => intro t o h; simp [generateRecurringLoop] at h
  | succ fuel ih =>
    intro t o h
    rw [generateRecurringLoop] at h
    by_cases hle : t ≤ endDate
    · rw [if_pos hle] at h
      rcases List.mem_append.1 h with h1 | h2
      · by_cases hc : shouldCreateInstance rule t = true
        · rw [if_pos hc] at h1
          exact ⟨t, hle, hc, List.mem_singleton.1 h1⟩
        · rw [if_neg hc] at h1
          exact absurd h1 (List.not_mem_nil o)
      · exact ih h2
    · rw [if_neg hle] at h
      exact absurd h (List.not_mem_nil o)

/-! ### Sample entities used by the concrete witnesses and counterexamples -/

/-- A plain one-hour, non-recurring event anchored at the epoch. -/
def plainEvent : CalendarEvent :=
  { id := "e1", title := "standup", description := none, startDate := 0,
    endDate := 3600000, isAllDay := false, color := "#3b82f6", priority := "P3",
    tags := [], location := none, recurrence := none, createdAt := 0, updatedAt := 0 }

/-- A daily rule with interval 2 and no end condition. -/
def dailyRuleTwo : RecurrencePattern :=
  { type := "daily", interval := 2, daysOfWeek := none, dayOfMonth := none,
    weekOfMonth := none, monthOfYear := none, endDate := none }

/-- `plainEvent` recurring every other day. -/
def dailyEventTwo : CalendarEvent := { plainEvent with recurrence := some dailyRuleTwo }

/-- Claim C4: window containment — every occurrence produced by
`generateEventInstances` (whether a passed-through non-recurring event or a
generated instance of a recurring one, for any rule and any fuel) starts inside
the closed window `[viewStart, viewEnd]`. -/
theorem claim_C4 (events : List CalendarEvent) (viewStart viewEnd : Int) (fuel : Nat)
    (o : CalendarEvent) (ho : o ∈ (generateEventInstances events viewStart viewEnd fuel).1) :
    viewStart ≤ o.startDate ∧ o.startDate ≤ viewEnd := by
  rcases List.mem_flatMap.1 ho with ⟨ev, _, hmem⟩
  rw [expandEvent] at hmem
  rcases hrec : ev.recurrence with _ | rule
  · simp only [hrec] at hmem
    by_cases hin : (decide (viewStart ≤ ev.startDate) && decide (ev.startDate ≤ viewEnd)) = true
    · rw [if_pos hin] at hmem
      rw [Bool.and_eq_true] at hin
      obtain rfl := List.mem_singleton.1 hmem
      exact ⟨of_decide_eq_true hin.1, of_decide_eq_true hin.2⟩
    · rw [if_neg hin] at hmem
      exact absurd hmem (List.not_mem_nil o)
  · simp only [hrec] at hmem
    by_cases hnone : (rule.type == "none") = true
    · rw [if_pos hnone] at hmem
      by_cases hin : (decide (viewStart ≤ ev.startDate) && decide (ev.startDate ≤ viewEnd)) = true
      · rw [if_pos hin] at hmem
        rw [Bool.and_eq_true] at hin
        obtain rfl := List.mem_singleton.1 hmem
        exact ⟨of_decide_eq_true hin.1, of_decide_eq_true hin.2⟩
      · rw [if_neg hin] at hmem
        exact absurd hmem (List.not_mem_nil o)
    · rw [if_neg hnone] at hmem
      rcases mem_generateInstancesLoop hmem with ⟨s, hs1, hs2, _, rfl⟩
      rw [eventInstance_startDate]
      exact ⟨hs1, hs2⟩

/-- Witness for C4: the instance of the every-other-day event generated two
days into the window `[0, 4 days]` lies inside that window. -/
theorem claim_C4_witness :
    eventInstance dailyEventTwo (2 * dayMs) ∈
      (generateEventInstances [dailyEventTwo] 0 (4 * dayMs) 10).1
    ∧ 0 ≤ (eventInstance dailyEventTwo (2 * dayMs)).startDate
    ∧ (eventInstance dailyEventTwo (2 * dayMs)).startDate ≤ 4 * dayMs :=
  ⟨by decide,
   claim_C4 [dailyEventTwo] 0 (4 * dayMs) 10 (eventInstance dailyEventTwo (2 * dayMs))
     (by decide)⟩

/-- Claim C5: duration preservation — both expanders shift the end time by
exactly the original duration: every occurrence of `generateEventInstances`
satisfies `endDate − startDate = original.endDate − original.startDate`, and
every occurrence that `generateRecurringInstances` produces from a base item
with an end time satisfies `endTime − startTime = base.endTime − base.startTime`. -/
theorem claim_C5 :
    (∀ (event : CalendarEvent) (viewStart viewEnd : Int) (fuel : Nat) (o : CalendarEvent),
      o ∈ (generateEventInstances [event] viewStart viewEnd fuel).1 →
      o.endDate - o.startDate = event.endDate - event.startDate)
    ∧ (∀ (rule : RecurrenceRule) (baseItem : CalendarItem) (startDate endDate : Int)
        (fuel : Nat) (o : CalendarItem) (be : Int),
      o ∈ (generateRecurringInstances rule baseItem startDate endDate fuel).1 →
      baseItem.endTime = some be →
      ∃ oe, o.endTime = some oe ∧ oe - o.startTime = be - baseItem.startTime) := by
  constructor
  · intro event viewStart viewEnd fuel o ho
    rcases List.mem_flatMap.1 ho with ⟨ev, hev, hmem⟩
    obtain rfl := List.mem_singleton.1 hev
    rw [expandEvent] at hmem
    rcases hrec : ev.recurrence with _ | rule
    · simp only [hrec] at hmem
      by_cases hin : (decide (viewStart ≤ ev.startDate) && decide (ev.startDate ≤ viewEnd)) = true
      · rw [if_pos hin] at hmem
        obtain rfl := List.mem_singleton.1 hmem
        rfl
      · rw [if_neg hin] at hmem
        exact absurd hmem (List.not_mem_nil o)
    · simp only [hrec] at hmem
      by_cases hnone : (rule.type == "none") = true
      · rw [if_pos hnone] at hmem
        by_cases hin : (decide (viewStart ≤ ev.startDate) && decide (ev.startDate ≤ viewEnd)) = true
        · rw [if_pos hin] at hmem
          obtain rfl := List.mem_singleton.1 hmem
          rfl
        · rw [if_neg hin] at hmem
          exact absurd hmem (List.not_mem_nil o)
      · rw [if_neg hnone] at hmem
        rcases mem_generateInstancesLoop hmem with ⟨s, _, _, _, rfl⟩
        rw [eventInstance_startDate, eventInstance_endDate]
        omega
  · intro rule baseItem startDate endDate fuel o be ho hbe
    rcases mem_generateRecurringLoop ho with ⟨s, _, _, rfl⟩
    refine ⟨s + (be - baseItem.startTime), ?_, ?_⟩
    · show (baseItem.endTime.map fun e => s + (e - baseItem.startTime)) = _
      rw [hbe]
      rfl
    · show s + (be - baseItem.startTime) - s = _
      omega

/-- A sample timed base item (one-hour span) for the older expander. -/
def timedBase : CalendarItem :=
  { id := "b1", title := "block", description := none, startTime := 0,
    endTime := some 3600000, duration := none, type := "event", color := none,
    project := none, group := none, priority := none, status := none, notes := none,
    isAutoRolled := none, originalItem := OriginalItem.event plainEvent }

/-- A plain daily rule (interval 1, no end date) for the older expander. -/
def dailyRuleOld : RecurrenceRule :=
  { frequency := "daily", interval := some 1, daysOfWeek := none, dayOfMonth := none,
    monthOfYear := none, endDate := none, exceptions := none }

/-- Witness for C5: a generated instance of the every-other-day event keeps the
one-hour duration, and so does an instance of the older expander whose base
item carries an end time. -/
theorem claim_C5_witness :
    ((eventInstance dailyEventTwo (2 * dayMs)).endDate
        - (eventInstance dailyEventTwo (2 * dayMs)).startDate
      = dailyEventTwo.endDate - dailyEventTwo.startDate)
    ∧ ∃ oe, (recurringInstance timedBase (1 * dayMs)).endTime = some oe
        ∧ oe - (recurringInstance timedBase (1 * dayMs)).startTime
          = 3600000 - timedBase.startTime :=
  ⟨claim_C5.1 dailyEventTwo 0 (4 * dayMs) 10 (eventInstance dailyEventTwo (2 * dayMs))
     (by decide),
   claim_C5.2 dailyRuleOld timedBase 0 (2 * dayMs) 10 (recurringInstance timedBase (1 * dayMs))
     3600000 (by decide) rfl⟩

/-! ### C1: end-date cutoff -/

/-- A date accepted by `shouldCreateInstance` under a set end date does not lie
strictly after that end date (the guard rejects only `date > endDate`). -/
theorem shouldCreateInstance_le_endDate {rule : RecurrenceRule} {t ed : Int}
    (hsc : shouldCreateInstance rule t = true) (hed : rule.endDate = some ed) :
    t ≤ ed := by
  rw [shouldCreateInstance] at hsc
  simp only [hed] at hsc
  by_cases hgt : t > ed
  · simp [hgt] at hsc
  · omega

/-- Claim C1, amended: under a rule with `endDate` set, every occurrence
generated by `generateRecurringInstances` starts on or before `endDate`
(occurrences starting exactly on `endDate` are generated; only strictly later
cursor dates are rejected). -/
theorem claim_C1_amended (rule : RecurrenceRule) (baseItem : CalendarItem)
    (startDate endDate : Int) (fuel : Nat) (o : CalendarItem) (ed : Int)
    (ho : o ∈ (generateRecurringInstances rule baseItem startDate endDate fuel).1)
    (hed : rule.endDate = some ed) :
    o.startTime ≤ ed := by
  rcases mem_generateRecurringLoop ho with ⟨s, _, hsc, rfl⟩
  exact shouldCreateInstance_le_endDate hsc hed

/-- A daily rule whose end date is exactly two days after the epoch. -/
def endedDailyRule : RecurrenceRule :=
  { frequency := "daily", interval := some 1, daysOfWeek := none, dayOfMonth := none,
    monthOfYear := none, endDate := some (2 * dayMs), exceptions := none }

/-- Counterexample to claim C1 as stated: with `endDate` two days after the
epoch, the expansion of a daily rule over the window `[0, 4 days]` contains an
occurrence starting exactly on `endDate`, so `startTime < endDate` fails. -/
theorem claim_C1_counterexample :
    endedDailyRule.endDate = some (2 * dayMs)
    ∧ recurringInstance timedBase (2 * dayMs) ∈
        (generateRecurringInstances endedDailyRule timedBase 0 (4 * dayMs) 10).1
    ∧ ¬ (recurringInstance timedBase (2 * dayMs)).startTime < 2 * dayMs := by
  refine ⟨rfl, by decide, by decide⟩

/-- Witness for the amended C1: the occurrence generated one day into the same
window starts on or before the rule's end date. -/
theorem claim_C1_amended_witness :
    recurringInstance timedBase (1 * dayMs) ∈
      (generateRecurringInstances endedDailyRule timedBase 0 (4 * dayMs) 10).1
    ∧ (recurringInstance timedBase (1 * dayMs)).startTime ≤ 2 * dayMs :=
  ⟨by decide,
   claim_C1_amended endedDailyRule timedBase 0 (4 * dayMs) 10
     (recurringInstance timedBase (1 * dayMs)) (2 * dayMs) (by decide) rfl⟩

/-! ### C2: degenerate intervals -/

/-- A daily rule with the malformed interval −1: `interval || 1` only replaces
the falsy value 0, so −1 is kept. -/
def negDailyRule : RecurrencePattern :=
  { type := "daily", interval := -1, daysOfWeek := none, dayOfMonth := none,
    weekOfMonth := none, monthOfYear := none, endDate := none }

/-- `plainEvent` with the malformed daily rule. -/
def negDailyEvent : CalendarEvent := { plainEvent with recurrence := some negDailyRule }

/-- A daily rule with interval 1 (what claim C2 says interval −1 should behave as). -/
def oneDailyRule : RecurrencePattern :=
  { type := "daily", interval := 1, daysOfWeek := none, dayOfMonth := none,
    weekOfMonth := none, monthOfYear := none, endDate := none }

/-- `plainEvent` recurring daily with interval 1. -/
def oneDailyEvent : CalendarEvent := { plainEvent with recurrence := some oneDailyRule }

/-- Under the malformed rule the cursor moves one day backwards per iteration. -/
theorem nextEventCursor_negDaily (viewEnd t : Int) :
    nextEventCursor negDailyRule viewEnd t = t - dayMs := by
  show addDays t (-1) = t - dayMs
  simp only [addDays, dayMs]
  ring

/-- With interval −1 the cursor never exceeds the window end, so the expansion
loop never exits normally, at any fuel. -/
theorem negDailyLoop_incomplete (viewEnd : Int) :
    ∀ (fuel : Nat) (t : Int), t ≤ viewEnd →
      (generateInstancesLoop negDailyEvent negDailyRule 0 viewEnd fuel t).2 = false := by
  intro fuel
  induction fuel with
  | zero => intro t _; rfl
  | succ fuel ih =>
    intro t ht
    rw [generateInstancesLoop, if_pos ht]
    show (generateInstancesLoop negDailyEvent negDailyRule 0 viewEnd fuel
      (nextEventCursor negDailyRule viewEnd t)).2 = false
    rw [nextEventCursor_negDaily]
    refine ih (t - dayMs) ?_
    simp only [dayMs]
    omega

/-- Claim C2 is a code bug at interval −1: `rule.interval || 1` coerces only
the falsy interval 0, so a negative interval is kept, the cursor retreats one
day per iteration and the `while (currentDate <= viewEnd)` loop never
terminates (the fuel-indexed model never exits normally), whereas the same
event with interval 1 terminates and yields the eleven daily occurrences of
the window `[0, 10 days]`. -/
theorem claim_C2_code_bug :
    (∀ fuel : Nat, (generateEventInstances [negDailyEvent] 0 (10 * dayMs) fuel).2 = false)
    ∧ (generateEventInstances [oneDailyEvent] 0 (10 * dayMs) 13).2 = true
    ∧ (generateEventInstances [oneDailyEvent] 0 (10 * dayMs) 13).1.length = 11 := by
  refine ⟨?_, by decide, by decide⟩
  intro fuel
  have h := negDailyLoop_incomplete (10 * dayMs) fuel 0 (by decide)
  show ((generateInstancesLoop negDailyEvent negDailyRule 0 (10 * dayMs) fuel 0).2 && true) = false
  rw [h]
  rfl

/-! ### C3: unrecognized recurrence kinds -/

/-- The occurrence test of `generateEventInstances` accepts no date under an
unrecognized kind: every `case` of the `switch` fails and `shouldCreate`
remains false. -/
theorem shouldCreateEventInstance_unknown {rule : RecurrencePattern} {t : Int}
    (h2 : rule.type ≠ "daily") (h3 : rule.type ≠ "weekly") (h4 : rule.type ≠ "monthly")
    (h5 : rule.type ≠ "yearly") :
    shouldCreateEventInstance rule t = false := by
  rw [shouldCreateEventInstance]
  rw [if_neg (by simpa using h2), if_neg (by simpa using h3),
    if_neg (by simpa using h4), if_neg (by simpa using h5)]

/-- Under an unrecognized kind the advancement switch takes its default branch
and jumps the cursor one day past the view window. -/
theorem nextEventCursor_unknown {rule : RecurrencePattern} {viewEnd t : Int}
    (h2 : rule.type ≠ "daily") (h3 : rule.type ≠ "weekly") (h4 : rule.type ≠ "monthly")
    (h5 : rule.type ≠ "yearly") :
    nextEventCursor rule viewEnd t = addDays viewEnd 1 := by
  have hw : (rule.type == "weekly") = false := by simpa using h3
  simp [nextEventCursor, hw, h2, h4, h5]

/-- Under an unrecognized kind the cursor loop exits normally within two
iterations: the first iteration (if entered at all) jumps the cursor past the
view window and the second observes `currentDate > viewEnd`. -/
theorem unknownKindLoop_completes {event : CalendarEvent} {rule : RecurrencePattern}
    {viewStart viewEnd : Int}
    (h2 : rule.type ≠ "daily") (h3 : rule.type ≠ "weekly") (h4 : rule.type ≠ "monthly")
    (h5 : rule.type ≠ "yearly") (fuel : Nat) (hfuel : 2 ≤ fuel) (t : Int) :
    (generateInstancesLoop event rule viewStart viewEnd fuel t).2 = true := by
  obtain ⟨fuel2, rfl⟩ : ∃ k, fuel = k + 2 := ⟨fuel - 2, by omega⟩
  rw [generateInstancesLoop]
  by_cases hle : t ≤ viewEnd
  · rw [if_pos hle]
    show (generateInstancesLoop event rule viewStart viewEnd (fuel2 + 1)
      (nextEventCursor rule viewEnd t)).2 = true
    rw [nextEventCursor_unknown h2 h3 h4 h5, generateInstancesLoop,
      if_neg (by simp only [addDays, dayMs]; omega)]
  · rw [if_neg hle]

/-- Under an unrecognized kind the cursor loop emits nothing, at any fuel. -/
theorem unknownKindLoop_nil {event : CalendarEvent} {rule : RecurrencePattern}
    {viewStart viewEnd : Int}
    (h2 : rule.type ≠ "daily") (h3 : rule.type ≠ "weekly") (h4 : rule.type ≠ "monthly")
    (h5 : rule.type ≠ "yearly") :
    ∀ (fuel : Nat) (t : Int),
      (generateInstancesLoop event rule viewStart viewEnd fuel t).1 = [] := by
  intro fuel
  induction fuel with
  | zero => intro t; rfl
  | succ fuel ih =>
    intro t
    rw [generateInstancesLoop]
    by_cases hle : t ≤ viewEnd
    · rw [if_pos hle]
      show ((if decide (viewStart ≤ t) && shouldCreateEventInstance rule t then
          [eventInstance event t] else []) ++
        (generateInstancesLoop event rule viewStart viewEnd fuel
          (nextEventCursor rule viewEnd t)).1) = []
      rw [shouldCreateEventInstance_unknown h2 h3 h4 h5]
      simp [ih]
    · rw [if_neg hle]

/-- Claim C3, amended: an entity whose recurrence kind is present but
unrecognized (not none/daily/weekly/monthly/yearly) produces NO occurrences at
all — it is dropped even when its start time lies inside the window — and no
error is raised: with fuel for the two iterations the walk needs, the loop
exits normally (the normal-exit flag is true), so the expansion returns. -/
theorem claim_C3_amended (event : CalendarEvent) (rule : RecurrencePattern)
    (viewStart viewEnd : Int) (fuel : Nat)
    (hr : event.recurrence = some rule)
    (h1 : rule.type ≠ "none") (h2 : rule.type ≠ "daily") (h3 : rule.type ≠ "weekly")
    (h4 : rule.type ≠ "monthly") (h5 : rule.type ≠ "yearly") :
    (generateEventInstances [event] viewStart viewEnd fuel).1 = []
    ∧ (2 ≤ fuel → (generateEventInstances [event] viewStart viewEnd fuel).2 = true) := by
  constructor
  · show (expandEvent event viewStart viewEnd fuel).1 ++ [] = []
    rw [List.append_nil, expandEvent]
    simp only [hr]
    rw [if_neg (by simpa using h1)]
    exact unknownKindLoop_nil h2 h3 h4 h5 fuel event.startDate
  · intro hfuel
    show ((expandEvent event viewStart viewEnd fuel).2 && true) = true
    rw [expandEvent]
    simp only [hr]
    rw [if_neg (by simpa using h1)]
    rw [unknownKindLoop_completes h2 h3 h4 h5 fuel hfuel event.startDate]
    rfl

/-- A rule of the schema-legal but expander-unhandled kind `custom`. -/
def customRule : RecurrencePattern :=
  { type := "custom", interval := 1, daysOfWeek := none, dayOfMonth := none,
    weekOfMonth := none, monthOfYear := none, endDate := none }

/-- An event with the `custom` rule whose start lies inside `[0, 9 days]`. -/
def customEvent : CalendarEvent :=
  { plainEvent with
    startDate := 5 * dayMs
    endDate := 5 * dayMs + 3600000
    recurrence := some customRule }

/-- Counterexample to claim C3 as stated: the `custom`-kind event starts inside
the window, yet it is NOT passed through — the expansion drops it entirely
instead of treating the unknown kind as `none`. -/
theorem claim_C3_counterexample :
    customEvent.recurrence = some customRule ∧ customRule.type = "custom"
    ∧ 0 ≤ customEvent.startDate ∧ customEvent.startDate ≤ 9 * dayMs
    ∧ customEvent ∉ (generateEventInstances [customEvent] 0 (9 * dayMs) 20).1 := by
  refine ⟨rfl, rfl, by decide, by decide, by decide⟩

/-- Witness for the amended C3: expanding the `custom`-kind event yields the
empty list, and the expansion exits normally. -/
theorem claim_C3_amended_witness :
    (generateEventInstances [customEvent] 0 (9 * dayMs) 20).1 = []
    ∧ (generateEventInstances [customEvent] 0 (9 * dayMs) 20).2 = true :=
  ⟨(claim_C3_amended customEvent customRule 0 (9 * dayMs) 20 rfl
      (by decide) (by decide) (by decide) (by decide) (by decide)).1,
   (claim_C3_amended customEvent customRule 0 (9 * dayMs) 20 rfl
      (by decide) (by decide) (by decide) (by decide) (by decide)).2 (by decide)⟩

/-! ### C6: conflict detection -/

/-- Membership in `detectConflicts`, characterized: with both candidate times
and the item's end time present, an item is reported iff it is in the list,
has a different id, and the endpoint-sorted intervals strictly overlap. -/
theorem mem_detectConflicts_iff {allItems : List CalendarItem}
    {currentItem : ConflictCandidate} {b : CalendarItem} {cs ce be : Int}
    (hcs : currentItem.startTime = some cs) (hce : currentItem.endTime = some ce)
    (hbe : b.endTime = some be) :
    b ∈ detectConflicts allItems currentItem ↔
      b ∈ allItems ∧ b.id ≠ currentItem.id ∧
        min cs ce < max b.startTime be ∧ min b.startTime be < max cs ce := by
  rw [detectConflicts]
  simp only [hcs, hce]
  rw [List.mem_filter]
  by_cases hid : b.id = currentItem.id
  · simp [hid, hbe]
  · have hid2 : (b.id == currentItem.id) = false := by simpa using hid
    simp [hid2, hid, hbe, areIntervalsOverlapping]

/-- A candidate without a start time conflicts with nothing. -/
theorem detectConflicts_noStart {allItems : List CalendarItem}
    {currentItem : ConflictCandidate} (h : currentItem.startTime = none) :
    detectConflicts allItems currentItem = [] := by
  rw [detectConflicts]
  simp only [h]

/-- A candidate without an end time conflicts with nothing. -/
theorem detectConflicts_noEnd {allItems : List CalendarItem}
    {currentItem : ConflictCandidate} (h : currentItem.endTime = none) :
    detectConflicts allItems currentItem = [] := by
  rw [detectConflicts]
  rcases hcs : currentItem.startTime with _ | cs <;> simp only [hcs, h]

/-- Claim C6, amended: membership in `detectConflicts(items, candidate)` holds
iff the item is in the list, has a different id, has an end time, and the
endpoint-sorted intervals strictly overlap (for intervals with `start ≤ end`
this is exactly `aStart < bEnd ∧ bStart < aEnd`); a candidate lacking either
time yields the empty result; items without an end time are never reported;
and back-to-back intervals sharing only an endpoint never conflict. -/
theorem claim_C6_amended :
    (∀ (allItems : List CalendarItem) (currentItem : ConflictCandidate)
        (b : CalendarItem) (cs ce be : Int),
      currentItem.startTime = some cs → currentItem.endTime = some ce →
      b.endTime = some be →
      (b ∈ detectConflicts allItems currentItem ↔
        b ∈ allItems ∧ b.id ≠ currentItem.id ∧
          min cs ce < max b.startTime be ∧ min b.startTime be < max cs ce))
    ∧ (∀ (allItems : List CalendarItem) (currentItem : ConflictCandidate),
        currentItem.startTime = none → detectConflicts allItems currentItem = [])
    ∧ (∀ (allItems : List CalendarItem) (currentItem : ConflictCandidate),
        currentItem.endTime = none → detectConflicts allItems currentItem = [])
    ∧ (∀ (allItems : List CalendarItem) (currentItem : ConflictCandidate)
        (b : CalendarItem), b.endTime = none → b ∉ detectConflicts allItems currentItem)
    ∧ (∀ (allItems : List CalendarItem) (currentItem : ConflictCandidate)
        (b : CalendarItem) (cs ce be : Int),
      currentItem.startTime = some cs → currentItem.endTime = some ce →
      b.endTime = some be → cs ≤ ce → b.startTime ≤ be →
      (ce = b.startTime ∨ be = cs) →
      b ∉ detectConflicts allItems currentItem) := by
  refine ⟨?_, ?_, ?_, ?_, ?_⟩
  · intro allItems currentItem b cs ce be hcs hce hbe
    exact mem_detectConflicts_iff hcs hce hbe
  · intro allItems currentItem h
    exact detectConflicts_noStart h
  · intro allItems currentItem h
    exact detectConflicts_noEnd h
  · intro allItems currentItem b hbe hmem
    rcases hcs : currentItem.startTime with _ | cs
    · rw [detectConflicts_noStart hcs] at hmem
      exact absurd hmem (List.not_mem_nil b)
    rcases hce : currentItem.endTime with _ | ce
    · rw [detectConflicts_noEnd hce] at hmem
      exact absurd hmem (List.not_mem_nil b)
    rw [detectConflicts] at hmem
    simp only [hcs, hce] at hmem
    rw [List.mem_filter] at hmem
    rcases hmem with ⟨-, hp⟩
    simp [hbe] at hp
  · intro allItems currentItem b cs ce be hcs hce hbe h1 h2 h3 hmem
    rw [mem_detectConflicts_iff hcs hce hbe] at hmem
    rcases hmem with ⟨-, -, hov1, hov2⟩
    rcases h3 with h3 | h3 <;> omega

/-- An item occupying `[2h, 4h)`. -/
def intervalItemB : CalendarItem :=
  { timedBase with id := "b2", startTime := 2 * 3600000, endTime := some (4 * 3600000) }

/-- A candidate occupying `[3h, 5h)`. -/
def candOverlap : ConflictCandidate :=
  { id := "c1", startTime := some (3 * 3600000), endTime := some (5 * 3600000) }

/-- Witness for the amended C6: the `[2h, 4h)` item is reported as conflicting
with the `[3h, 5h)` candidate. -/
theorem claim_C6_amended_witness :
    intervalItemB ∈ detectConflicts [intervalItemB] candOverlap :=
  (claim_C6_amended.1 [intervalItemB] candOverlap intervalItemB
    (3 * 3600000) (5 * 3600000) (4 * 3600000) rfl rfl rfl).mpr (by decide)

/-- A zero-duration candidate sitting at `5h`, strictly inside `[4h, 6h)`. -/
def zeroDurCandidate : ConflictCandidate :=
  { id := "c0", startTime := some (5 * 3600000), endTime := some (5 * 3600000) }

/-- An item occupying `[4h, 6h)`. -/
def aroundItem : CalendarItem :=
  { timedBase with id := "b3", startTime := 4 * 3600000, endTime := some (6 * 3600000) }

/-- Counterexample to claim C6 as stated: a zero-duration candidate strictly
inside another interval IS reported as conflicting, contradicting the clause
that zero-duration intervals never conflict. -/
theorem claim_C6_counterexample :
    zeroDurCandidate.startTime = zeroDurCandidate.endTime
    ∧ aroundItem ∈ detectConflicts [aroundItem] zeroDurCandidate := by
  refine ⟨rfl, by decide⟩

/-! ### C7 and C10: stale-task rollover -/

/-- Truncation to midnight is idempotent. -/
theorem truncDay_idem (t : Int) : truncDay (truncDay t) = truncDay t := by
  show t / dayMs * dayMs / dayMs * dayMs = t / dayMs * dayMs
  rw [Int.mul_ediv_cancel _ (by decide : dayMs ≠ 0)]

/-- Indexing a mapped list. -/
theorem get_map_eq {α β : Type} (f : α → β) (l : List α) (i : Nat)
    (h1 : i < l.length) (h2 : i < (l.map f).length) :
    (l.map f).get ⟨i, h2⟩ = f (l.get ⟨i, h1⟩) := by
  simp

/-- The rollover branch: incomplete, due before today — rewritten and flagged. -/
theorem rolloverTask_rolled {today : Int} {task : Task} {d : Int}
    (hs : task.status ≠ "completed") (hd : task.dueDate = some d)
    (hlt : truncDay d < today) :
    rolloverTask today task = { task with dueDate := some today, isAutoRolled := true } := by
  unfold rolloverTask
  rw [if_pos (by simpa using hs)]
  simp only [hd]
  rw [if_pos hlt]

/-- The pass-through branch: completed, or no due date, or due today/later. -/
theorem rolloverTask_unchanged {today : Int} {task : Task}
    (h : task.status = "completed" ∨ task.dueDate = none ∨
      ∀ d, task.dueDate = some d → today ≤ truncDay d) :
    rolloverTask today task = task := by
  unfold rolloverTask
  rcases h with h | h | h
  · rw [if_neg (by simp [h])]
  · by_cases hs : (task.status != "completed") = true
    · rw [if_pos hs]
      simp only [h]
    · rw [if_neg hs]
  · by_cases hs : (task.status != "completed") = true
    · rw [if_pos hs]
      rcases hd : task.dueDate with _ | d
      · simp only [hd]
      · simp only [hd]
        rw [if_neg (by have := h d hd; omega)]
    · rw [if_neg hs]

/-- `rolloverTask` only ever touches `dueDate` and `isAutoRolled`. -/
theorem rolloverTask_shape (today : Int) (task : Task) :
    ∃ nd nr, rolloverTask today task = { task with dueDate := nd, isAutoRolled := nr } := by
  unfold rolloverTask
  split
  · split
    · split
      · exact ⟨some today, true, rfl⟩
      · exact ⟨task.dueDate, task.isAutoRolled, rfl⟩
    · exact ⟨task.dueDate, task.isAutoRolled, rfl⟩
  · exact ⟨task.dueDate, task.isAutoRolled, rfl⟩

/-- Claim C7: the rollover postcondition.  Position by position: an incomplete
task due strictly before today's calendar day becomes the same task with
`dueDate = today's midnight` and `isAutoRolled = true`; every other task is
returned unchanged; and afterwards no incomplete task is due strictly before
today. -/
theorem claim_C7 (tasks : List Task) (now : Int) :
    (autoRolloverTasks tasks now).length = tasks.length
    ∧ (∀ (i : Nat) (h1 : i < tasks.length) (h2 : i < (autoRolloverTasks tasks now).length),
        ((tasks.get ⟨i, h1⟩).status ≠ "completed" →
          ∀ d, (tasks.get ⟨i, h1⟩).dueDate = some d → truncDay d < truncDay now →
          (autoRolloverTasks tasks now).get ⟨i, h2⟩ =
            { tasks.get ⟨i, h1⟩ with dueDate := some (truncDay now), isAutoRolled := true })
        ∧ (((tasks.get ⟨i, h1⟩).status = "completed" ∨ (tasks.get ⟨i, h1⟩).dueDate = none ∨
            (∀ d, (tasks.get ⟨i, h1⟩).dueDate = some d → truncDay now ≤ truncDay d)) →
          (autoRolloverTasks tasks now).get ⟨i, h2⟩ = tasks.get ⟨i, h1⟩))
    ∧ (∀ o ∈ autoRolloverTasks tasks now, o.status ≠ "completed" →
        ∀ d, o.dueDate = some d → truncDay now ≤ truncDay d) := by
  refine ⟨by simp [autoRolloverTasks], ?_, ?_⟩
  · intro i h1 h2
    have hg := get_map_eq (rolloverTask (truncDay now)) tasks i h1 h2
    constructor
    · intro hs d hd hlt
      exact hg.trans (rolloverTask_rolled hs hd hlt)
    · intro h
      exact hg.trans (rolloverTask_unchanged h)
  · intro o ho hs d hd
    rcases List.mem_map.1 ho with ⟨t, _, rfl⟩
    by_cases hsc : t.status = "completed"
    · rw [rolloverTask_unchanged (Or.inl hsc)] at hs hd
      exact absurd hsc hs
    rcases hdd : t.dueDate with _ | due
    · rw [rolloverTask_unchanged (Or.inr (Or.inl hdd))] at hd
      rw [hdd] at hd
      exact absurd hd (by simp)
    by_cases hlt : truncDay due < truncDay now
    · rw [rolloverTask_rolled hsc hdd hlt] at hd
      have hh : truncDay now = d := by simpa using hd
      rw [← hh, truncDay_idem]
    · have hun : rolloverTask (truncDay now) t = t :=
        rolloverTask_unchanged (Or.inr (Or.inr (fun e he => by
          rw [hdd] at he
          obtain rfl : due = e := by simpa using he
          omega)))
      rw [hun] at hd
      rw [hdd] at hd
      obtain rfl : due = d := by simpa using hd
      omega

/-- An incomplete task due one day after the epoch (with a time-of-day part). -/
def staleTask : Task :=
  { id := "t1", title := "report", notes := none, completed := false, priority := "P2",
    status := "todo", dueDate := some (1 * dayMs + 3600000), startDate := none,
    project := some "work", tags := ["deep"], isAutoRolled := false,
    createdAt := 0, updatedAt := 0 }

/-- A simulated `new Date()` four days after the epoch, at 02:00. -/
def nowSample : Int := 4 * dayMs + 7200000

/-- Witness for C7: the stale task is rolled to the simulated today's midnight
and flagged. -/
theorem claim_C7_witness :
    staleTask.status ≠ "completed"
    ∧ truncDay (1 * dayMs + 3600000) < truncDay nowSample
    ∧ (autoRolloverTasks [staleTask] nowSample).get ⟨0, by decide⟩ =
        { staleTask with dueDate := some (truncDay nowSample), isAutoRolled := true } :=
  ⟨by decide, by decide,
   ((claim_C7 [staleTask] nowSample).2.1 0 (by decide) (by decide)).1 (by decide)
     (1 * dayMs + 3600000) rfl (by decide)⟩

/-- Claim C10: the rollover frame — same length, same order, and every field
other than `dueDate` and `isAutoRolled` of every output task equals the
corresponding input task's field. -/
theorem claim_C10 (tasks : List Task) (now : Int) :
    (autoRolloverTasks tasks now).length = tasks.length
    ∧ ∀ (i : Nat) (h1 : i < tasks.length) (h2 : i < (autoRolloverTasks tasks now).length),
      ((autoRolloverTasks tasks now).get ⟨i, h2⟩).id = (tasks.get ⟨i, h1⟩).id
      ∧ ((autoRolloverTasks tasks now).get ⟨i, h2⟩).title = (tasks.get ⟨i, h1⟩).title
      ∧ ((autoRolloverTasks tasks now).get ⟨i, h2⟩).notes = (tasks.get ⟨i, h1⟩).notes
      ∧ ((autoRolloverTasks tasks now).get ⟨i, h2⟩).completed = (tasks.get ⟨i, h1⟩).completed
      ∧ ((autoRolloverTasks tasks now).get ⟨i, h2⟩).priority = (tasks.get ⟨i, h1⟩).priority
      ∧ ((autoRolloverTasks tasks now).get ⟨i, h2⟩).status = (tasks.get ⟨i, h1⟩).status
      ∧ ((autoRolloverTasks tasks now).get ⟨i, h2⟩).startDate = (tasks.get ⟨i, h1⟩).startDate
      ∧ ((autoRolloverTasks tasks now).get ⟨i, h2⟩).project = (tasks.get ⟨i, h1⟩).project
      ∧ ((autoRolloverTasks tasks now).get ⟨i, h2⟩).tags = (tasks.get ⟨i, h1⟩).tags
      ∧ ((autoRolloverTasks tasks now).get ⟨i, h2⟩).createdAt = (tasks.get ⟨i, h1⟩).createdAt
      ∧ ((autoRolloverTasks tasks now).get ⟨i, h2⟩).updatedAt = (tasks.get ⟨i, h1⟩).updatedAt := by
  refine ⟨by simp [autoRolloverTasks], ?_⟩
  intro i h1 h2
  have hg : (autoRolloverTasks tasks now).get ⟨i, h2⟩
      = rolloverTask (truncDay now) (tasks.get ⟨i, h1⟩) :=
    get_map_eq (rolloverTask (truncDay now)) tasks i h1 h2
  rcases rolloverTask_shape (truncDay now) (tasks.get ⟨i, h1⟩) with ⟨nd, nr, hshape⟩
  rw [hg, hshape]
  exact ⟨rfl, rfl, rfl, rfl, rfl, rfl, rfl, rfl, rfl, rfl, rfl⟩

/-- Witness for C10: the rolled stale task keeps its id and project. -/
theorem claim_C10_witness :
    ((autoRolloverTasks [staleTask] nowSample).get ⟨0, by decide⟩).id = staleTask.id
    ∧ ((autoRolloverTasks [staleTask] nowSample).get ⟨0, by decide⟩).project
      = staleTask.project :=
  ⟨((claim_C10 [staleTask] nowSample).2 0 (by decide) (by decide)).1,
   ((claim_C10 [staleTask] nowSample).2 0 (by decide) (by decide)).2.2.2.2.2.2.2.1⟩

/-! ### C8: normalizer ordering -/

/-- The start-time comparator is transitive. -/
theorem byStartTime_trans (a b c : CalendarItem) (hab : byStartTime a b = true)
    (hbc : byStartTime b c = true) : byStartTime a c = true := by
  simp only [byStartTime, decide_eq_true_eq] at hab hbc ⊢
  omega

/-- The start-time comparator is total. -/
theorem byStartTime_total (a b : CalendarItem) :
    (byStartTime a b || byStartTime b a) = true := by
  simp only [byStartTime, Bool.or_eq_true, decide_eq_true_eq]
  omega

/-- Claim C8: `convertToCalendarItems` returns a list sorted ascending by
start time, and the sort is stable: for each start time `t`, the items with
start time `t` appear exactly as in the pre-sort construction order (all tasks,
then events, then goals, then reminders, then time blocks, each category in
input order — which is what `convertUnsorted` builds). -/
theorem claim_C8 (tasks : List Task) (events : List CalendarEvent) (goals : List Goal)
    (reminders : List Reminder) (timeBlocks : List TimeBlock) :
    (convertToCalendarItems tasks events goals reminders timeBlocks).Pairwise
      (fun a b => a.startTime ≤ b.startTime)
    ∧ ∀ t : Int,
      (convertToCalendarItems tasks events goals reminders timeBlocks).filter
        (fun x => x.startTime == t)
      = (convertUnsorted tasks events goals reminders timeBlocks).filter
        (fun x => x.startTime == t) := by
  constructor
  · exact (List.sorted_mergeSort byStartTime_trans byStartTime_total
      (convertUnsorted tasks events goals reminders timeBlocks)).imp
        fun h => of_decide_eq_true h
  · intro t
    have hpw : ((convertUnsorted tasks events goals reminders timeBlocks).filter
        (fun x => x.startTime == t)).Pairwise (fun a b => byStartTime a b = true) := by
      apply List.pairwise_of_forall_mem_list
      intro a ha b hb
      have ha2 : a.startTime = t := by simpa using (List.mem_filter.1 ha).2
      have hb2 : b.startTime = t := by simpa using (List.mem_filter.1 hb).2
      simp only [byStartTime, decide_eq_true_eq]
      omega
    have hsub : List.Sublist
        ((convertUnsorted tasks events goals reminders timeBlocks).filter
          (fun x => x.startTime == t))
        ((convertUnsorted tasks events goals reminders timeBlocks).mergeSort byStartTime) :=
      List.sublist_mergeSort byStartTime_trans byStartTime_total hpw
        (List.filter_sublist _)
    have hid : ((convertUnsorted tasks events goals reminders timeBlocks).filter
          (fun x => x.startTime == t)).filter (fun x => x.startTime == t)
        = (convertUnsorted tasks events goals reminders timeBlocks).filter
          (fun x => x.startTime == t) :=
      List.filter_eq_self.mpr fun a ha => (List.mem_filter.1 ha).2
    have hsub2 := hid ▸ List.Sublist.filter (fun x : CalendarItem => x.startTime == t) hsub
    have hperm : List.Perm
        (((convertUnsorted tasks events goals reminders timeBlocks).mergeSort
          byStartTime).filter (fun x => x.startTime == t))
        ((convertUnsorted tasks events goals reminders timeBlocks).filter
          (fun x => x.startTime == t)) :=
      (List.mergeSort_perm _ byStartTime).filter _
    exact (List.Sublist.eq_of_length hsub2 hperm.length_eq.symm).symm

/-! ### C9: workload aggregation -/

/-- Folding additions of per-item minutes equals the sum of the mapped list. -/
theorem foldl_workload (l : List CalendarItem) (init : Int) :
    l.foldl (fun total item => total + durationOr30 item.duration) init
      = init + (l.map fun item => durationOr30 item.duration).sum := by
  induction l generalizing init with
  | nil => simp
  | cons a l ih =>
    simp only [List.foldl_cons, List.map_cons, List.sum_cons, ih]
    ring

/-- A 90-minute item in the first epoch day. -/
def item90 : CalendarItem :=
  { timedBase with id := "w90", startTime := 3600000, endTime := none, duration := some 90 }

/-- A 15-minute item in the first epoch day. -/
def item15 : CalendarItem :=
  { timedBase with id := "w15", startTime := 7200000, endTime := none, duration := some 15 }

/-- Claim C9, amended: the returned minutes are the sum, over the items of the
requested calendar day, of their durations with a missing OR ZERO duration
counted as 30 (JS `|| 30` treats the falsy 0 as absent); the intensity buckets
are inclusive on their upper ends; and the 90 + 15 scenario gives 105,
classified light. -/
theorem claim_C9_amended :
    (∀ (items : List CalendarItem) (date : Int),
      calculateWorkload items date =
        ((items.filter fun item => isSameDay item.startTime date).map
          fun item => durationOr30 item.duration).sum)
    ∧ getWorkloadColor 0 = "bg-gray-100"
    ∧ (∀ m : Int, 1 ≤ m → m ≤ 120 → getWorkloadColor m = "bg-green-200")
    ∧ (∀ m : Int, 121 ≤ m → m ≤ 240 → getWorkloadColor m = "bg-yellow-200")
    ∧ (∀ m : Int, 241 ≤ m → m ≤ 360 → getWorkloadColor m = "bg-orange-200")
    ∧ (∀ m : Int, 361 ≤ m → getWorkloadColor m = "bg-red-200")
    ∧ calculateWorkload [item90, item15] 0 = 105
    ∧ getWorkloadColor 105 = "bg-green-200" := by
  refine ⟨?_, rfl, ?_, ?_, ?_, ?_, by decide, by decide⟩
  · intro items date
    simp only [calculateWorkload]
    rw [foldl_workload]
    exact zero_add _
  · intro m h1 h2
    unfold getWorkloadColor
    rw [if_neg (by simp only [beq_iff_eq]; omega), if_pos h2]
  · intro m h1 h2
    unfold getWorkloadColor
    rw [if_neg (by simp only [beq_iff_eq]; omega), if_neg (by omega), if_pos h2]
  · intro m h1 h2
    unfold getWorkloadColor
    rw [if_neg (by simp only [beq_iff_eq]; omega), if_neg (by omega), if_neg (by omega),
      if_pos h2]
  · intro m h1
    unfold getWorkloadColor
    rw [if_neg (by simp only [beq_iff_eq]; omega), if_neg (by omega), if_neg (by omega),
      if_neg (by omega)]

/-- Witness for the amended C9: the scenario values, including a bucket with a
discharged range hypothesis. -/
theorem claim_C9_amended_witness :
    calculateWorkload [item90, item15] 0 = 105
    ∧ getWorkloadColor 105 = "bg-green-200"
    ∧ getWorkloadColor 300 = "bg-orange-200" :=
  ⟨claim_C9_amended.2.2.2.2.2.2.1, claim_C9_amended.2.2.2.2.2.2.2,
   claim_C9_amended.2.2.2.2.1 300 (by decide) (by decide)⟩

/-- An item with a present but zero duration, starting on the epoch day. -/
def zeroDurItem : CalendarItem :=
  { timedBase with id := "w0", startTime := 0, endTime := none, duration := some 0 }

/-- Counterexample to claim C9 as stated: for an item with duration 0 the code
counts 30 minutes (JS `|| 30`), while the claim's sum — defaulting only a
MISSING duration — gives 0. -/
theorem claim_C9_counterexample :
    zeroDurItem.duration = some 0
    ∧ calculateWorkload [zeroDurItem] 0 = 30
    ∧ workloadMinutesClaimed [zeroDurItem] 0 = 0
    ∧ calculateWorkload [zeroDurItem] 0 ≠ workloadMinutesClaimed [zeroDurItem] 0 := by
  refine ⟨rfl, by decide, by decide, by decide⟩

end CalendarCore
